import Mathlib

/-!
# Verification of the i8080 core (src/i8080.c)

A shallow embedding of the Intel 8080 (KR580VM80A) emulator core from
`src/i8080.c`.  The mutable C state (`struct i8080 cpu`, the scratch
globals `work8`/`work16`/`work32`/`index`/`carry`/`add`) becomes explicit
state passing; `uns8`/`uns16` machine integers become `Nat` with explicit
`% 256` / `% 65536` at every point where the C code stores into a
`uns8`/`uns16` location; C truth values (`x != 0`) become `Bool`.

The HAL (`i8080_hal.h`) is host-provided and not part of this repository;
its memory operations are modelled from the spec (§4.1): a flat 16-bit
byte-addressable space, 16-bit accesses little-endian.  `i8080_hal_io_input`
is modelled as an unconstrained function `io : Nat → Nat`;
`i8080_hal_io_output` and `i8080_hal_iff` have no effect on CPU state or
memory and are dropped.
-/

/-- Emulated memory, a total map from addresses to byte values. -/
abbrev Mem := Nat → Nat

/-- Modelled from the spec: the HAL operation `i8080_hal_memory_read_byte`
(declared in `i8080_hal.h`, implemented by the host).  Flat 16-bit address
space, byte values. -/
def RD_BYTE (m : Mem) (addr : Nat) : Nat := m (addr % 65536) % 256

/-- Modelled from the spec: the HAL operation `i8080_hal_memory_write_byte`. -/
def WR_BYTE (m : Mem) (addr v : Nat) : Mem :=
  fun x => if x = addr % 65536 then v % 256 else m x

/-- Modelled from the spec: the HAL operation `i8080_hal_memory_read_word`,
little-endian (low byte at `addr`, high byte at `addr+1`, wrapping at
0xFFFF). -/
def RD_WORD (m : Mem) (addr : Nat) : Nat :=
  RD_BYTE m addr + 256 * RD_BYTE m (addr + 1)

/-- Modelled from the spec: the HAL operation `i8080_hal_memory_write_word`,
little-endian. -/
def WR_WORD (m : Mem) (addr v : Nat) : Mem :=
  WR_BYTE (WR_BYTE m addr (v % 256)) (addr + 1) (v / 256 % 256)

/-- The C struct `flag_reg`: the five logical flags plus the three fixed
("unused") flag slots, in declaration order. -/
structure flag_reg where
  carry_flag : Bool
  unused1 : Bool
  parity_flag : Bool
  unused3 : Bool
  half_carry_flag : Bool
  unused5 : Bool
  zero_flag : Bool
  sign_flag : Bool
deriving DecidableEq

/-- The C struct `i8080` (the file-scope `cpu`).  The register pairs are
unions in C; here each 8-bit half is a field and the 16-bit pair views
`AF`, `BC`, `DE`, `HL` are derived functions.  Field names follow the C
access macros: `A` = `cpu.af.b.h`, `F` = `cpu.af.b.l` (the packed flags
byte), etc. -/
structure i8080 where
  f : flag_reg
  A : Nat
  F : Nat
  B : Nat
  C : Nat
  D : Nat
  E : Nat
  H : Nat
  L : Nat
  SP : Nat
  PC : Nat
  IFF : Nat
deriving DecidableEq

/-- One fetch-decode-execute result: the new CPU state, the new memory and
the machine-cycle count returned by `i8080_execute`. -/
structure StepResult where
  st : i8080
  mem : Mem
  cycles : Int

/-- The 16-bit pair view `BC` (`cpu.bc.w`). -/
def BC (s : i8080) : Nat := 256 * s.B + s.C

/-- The 16-bit pair view `DE` (`cpu.de.w`). -/
def DE (s : i8080) : Nat := 256 * s.D + s.E

/-- The 16-bit pair view `HL` (`cpu.hl.w`). -/
def HL (s : i8080) : Nat := 256 * s.H + s.L

/-- `i8080_getParity` from the source: fold the nibbles through the
constant 0x6996 (the 4-bit odd-parity table) and invert.  C's `!` maps a
nonzero int to 0 and 0 to 1. -/
def i8080_getParity (val : Nat) : Nat :=
  if (0x6996 >>> ((val ^^^ (val >>> 4)) &&& 0xf)) &&& 1 == 0 then 1 else 0

/-- `int half_carry_table[] = { 0, 0, 1, 0, 1, 0, 1, 1 };` -/
def half_carry_table : List Nat := [0, 0, 1, 0, 1, 0, 1, 1]

/-- `int sub_half_carry_table[] = { 0, 1, 1, 1, 0, 0, 0, 1 };` -/
def sub_half_carry_table : List Nat := [0, 1, 1, 1, 0, 0, 0, 1]

/-- `#define DEST(x) (x >> 3 & 7)` -/
def DEST (x : Nat) : Nat := x >>> 3 &&& 7

/-- `#define SOURCE(x) (x & 7)` -/
def SOURCE (x : Nat) : Nat := x &&& 7

/-- `#define CONDITION(x) (x >> 3 & 7)` -/
def CONDITION (x : Nat) : Nat := x >>> 3 &&& 7

/-- `#define RP(x) (x >> 4 & 3)` -/
def RP (x : Nat) : Nat := x >>> 4 &&& 3

/-- Read through the C register-pointer table
`REG[] = { &B, &C, &D, &E, &H, &L, &M, &A }`.  Index 6 is the file-scope
global `uns8 M`, which is never written anywhere in the source, so it
reads as its static initial value 0 (index 6 is in fact pre-empted by the
exact-match opcodes on every reachable path). -/
def REGget (s : i8080) : Nat → Nat
  | 0 => s.B
  | 1 => s.C
  | 2 => s.D
  | 3 => s.E
  | 4 => s.H
  | 5 => s.L
  | 6 => 0
  | _ => s.A

/-- Write through `REG`; a store into a `uns8` truncates mod 256.  Index 6
would write the dead global `M` (unreachable, see `REGget`). -/
def REGset (s : i8080) (i v : Nat) : i8080 :=
  match i with
  | 0 => { s with B := v % 256 }
  | 1 => { s with C := v % 256 }
  | 2 => { s with D := v % 256 }
  | 3 => { s with E := v % 256 }
  | 4 => { s with H := v % 256 }
  | 5 => { s with L := v % 256 }
  | 6 => s
  | _ => { s with A := v % 256 }

/-- Read through the C pair-pointer table `PAIR[] = { &BC, &DE, &HL, &SP }`. -/
def PAIRget (s : i8080) : Nat → Nat
  | 0 => BC s
  | 1 => DE s
  | 2 => HL s
  | _ => s.SP

/-- Write through `PAIR`; a store into a `uns16` truncates mod 65536 and a
pair store sets the two byte halves. -/
def PAIRset (s : i8080) (i v : Nat) : i8080 :=
  match i with
  | 0 => { s with B := v % 65536 / 256, C := v % 256 }
  | 1 => { s with D := v % 65536 / 256, E := v % 256 }
  | 2 => { s with H := v % 65536 / 256, L := v % 256 }
  | _ => { s with SP := v % 65536 }

/-- The `ADD(val)` macro: 16-bit scratch sum, half-carry via the lookup
table indexed by bits 3 of A, operand and result, then S/Z/H/P/C. -/
def ADD (s : i8080) (v : Nat) : i8080 :=
  let work16 := (s.A + v) % 65536
  let idx := ((s.A &&& 0x88) >>> 1) ||| ((v &&& 0x88) >>> 2) ||| ((work16 &&& 0x88) >>> 3)
  let a := work16 &&& 0xff
  { s with
    A := a,
    f := { s.f with
      sign_flag := (a &&& 0x80) != 0,
      zero_flag := a == 0,
      half_carry_flag := half_carry_table.getD (idx &&& 0x7) 0 != 0,
      parity_flag := i8080_getParity a != 0,
      carry_flag := (work16 &&& 0x100) != 0 } }

/-- The `ADC(val)` macro: as `ADD` with the carry flag added in. -/
def ADC (s : i8080) (v : Nat) : i8080 :=
  let work16 := (s.A + v + s.f.carry_flag.toNat) % 65536
  let idx := ((s.A &&& 0x88) >>> 1) ||| ((v &&& 0x88) >>> 2) ||| ((work16 &&& 0x88) >>> 3)
  let a := work16 &&& 0xff
  { s with
    A := a,
    f := { s.f with
      sign_flag := (a &&& 0x80) != 0,
      zero_flag := a == 0,
      half_carry_flag := half_carry_table.getD (idx &&& 0x7) 0 != 0,
      parity_flag := i8080_getParity a != 0,
      carry_flag := (work16 &&& 0x100) != 0 } }

/-- The `SUB(val)` macro.  `(uns16)A - (val)` wraps mod 2^16; for the byte
operands the callers pass, `65536 + A - v` is that value before reduction.
H is the complemented sub table entry. -/
def SUB (s : i8080) (v : Nat) : i8080 :=
  let work16 := (65536 + s.A - v) % 65536
  let idx := ((s.A &&& 0x88) >>> 1) ||| ((v &&& 0x88) >>> 2) ||| ((work16 &&& 0x88) >>> 3)
  let a := work16 &&& 0xff
  { s with
    A := a,
    f := { s.f with
      sign_flag := (a &&& 0x80) != 0,
      zero_flag := a == 0,
      half_carry_flag := sub_half_carry_table.getD (idx &&& 0x7) 0 == 0,
      parity_flag := i8080_getParity a != 0,
      carry_flag := (work16 &&& 0x100) != 0 } }

/-- The `SBB(val)` macro: as `SUB` with the carry flag subtracted as borrow. -/
def SBB (s : i8080) (v : Nat) : i8080 :=
  let work16 := (65536 + s.A - v - s.f.carry_flag.toNat) % 65536
  let idx := ((s.A &&& 0x88) >>> 1) ||| ((v &&& 0x88) >>> 2) ||| ((work16 &&& 0x88) >>> 3)
  let a := work16 &&& 0xff
  { s with
    A := a,
    f := { s.f with
      sign_flag := (a &&& 0x80) != 0,
      zero_flag := a == 0,
      half_carry_flag := sub_half_carry_table.getD (idx &&& 0x7) 0 == 0,
      parity_flag := i8080_getParity a != 0,
      carry_flag := (work16 &&& 0x100) != 0 } }

/-- The `CMP(val)` macro: the `SUB` flag computation applied to the scratch
difference, with A left untouched. -/
def CMP (s : i8080) (v : Nat) : i8080 :=
  let work16 := (65536 + s.A - v) % 65536
  let idx := ((s.A &&& 0x88) >>> 1) ||| ((v &&& 0x88) >>> 2) ||| ((work16 &&& 0x88) >>> 3)
  { s with
    f := { s.f with
      sign_flag := (work16 &&& 0x80) != 0,
      zero_flag := (work16 &&& 0xff) == 0,
      half_carry_flag := sub_half_carry_table.getD (idx &&& 0x7) 0 == 0,
      carry_flag := (work16 &&& 0x100) != 0,
      parity_flag := i8080_getParity (work16 &&& 0xff) != 0 } }

/-- The `ANA(val)` macro.  H is the documented 8080 quirk
`((A | val) & 0x08) != 0`, computed from the pre-AND accumulator. -/
def ANA (s : i8080) (v : Nat) : i8080 :=
  let a := s.A &&& v
  { s with
    A := a,
    f := { s.f with
      half_carry_flag := ((s.A ||| v) &&& 0x08) != 0,
      sign_flag := (a &&& 0x80) != 0,
      zero_flag := a == 0,
      parity_flag := i8080_getParity a != 0,
      carry_flag := false } }

/-- The `XRA(val)` macro. -/
def XRA (s : i8080) (v : Nat) : i8080 :=
  let a := s.A ^^^ v
  { s with
    A := a,
    f := { s.f with
      sign_flag := (a &&& 0x80) != 0,
      zero_flag := a == 0,
      half_carry_flag := false,
      parity_flag := i8080_getParity a != 0,
      carry_flag := false } }

/-- The `ORA(val)` macro. -/
def ORA (s : i8080) (v : Nat) : i8080 :=
  let a := s.A ||| v
  { s with
    A := a,
    f := { s.f with
      sign_flag := (a &&& 0x80) != 0,
      zero_flag := a == 0,
      half_carry_flag := false,
      parity_flag := i8080_getParity a != 0,
      carry_flag := false } }

/-- The `INR(reg)` macro on a byte value: increment (uns8 wraps mod 256)
and set S/Z/H/P; C is untouched.  Returns the new byte and flags. -/
def INR (r : Nat) (fl : flag_reg) : Nat × flag_reg :=
  let r2 := (r + 1) % 256
  (r2, { fl with
    sign_flag := (r2 &&& 0x80) != 0,
    zero_flag := r2 == 0,
    half_carry_flag := (r2 &&& 0x0f) == 0,
    parity_flag := i8080_getParity r2 != 0 })

/-- The `DCR(reg)` macro on a byte value: decrement (uns8 wraps mod 256),
`H = !((reg & 0x0f) == 0x0f)`. -/
def DCR (r : Nat) (fl : flag_reg) : Nat × flag_reg :=
  let r2 := (r + 255) % 256
  (r2, { fl with
    sign_flag := (r2 &&& 0x80) != 0,
    zero_flag := r2 == 0,
    half_carry_flag := !((r2 &&& 0x0f) == 0x0f),
    parity_flag := i8080_getParity r2 != 0 })

/-- The `DAD(reg)` macro: 32-bit scratch sum into HL, C from bit 16. -/
def DAD (s : i8080) (v : Nat) : i8080 :=
  let work32 := HL s + v
  { s with
    H := (work32 &&& 0xffff) / 256,
    L := (work32 &&& 0xffff) % 256,
    f := { s.f with carry_flag := (work32 &&& 0x10000) != 0 } }

/-- The first five assignments of `i8080_store_flags`: set or clear the
S/Z/H/P/C bits of the packed F byte from the logical flags.  Each C
`F &= ~mask` on the `uns8` F is the 8-bit mask written out (0x7f = ~0x80
etc. truncated to 8 bits). -/
def storeFlagsByte (s : i8080) : Nat :=
  let f1 := if s.f.sign_flag then s.F ||| 0x80 else s.F &&& 0x7f
  let f2 := if s.f.zero_flag then f1 ||| 0x40 else f1 &&& 0xbf
  let f3 := if s.f.half_carry_flag then f2 ||| 0x10 else f2 &&& 0xef
  let f4 := if s.f.parity_flag then f3 ||| 0x04 else f3 &&& 0xfb
  if s.f.carry_flag then f4 ||| 0x01 else f4 &&& 0xfe

/-- `i8080_store_flags`: materialize the logical flags into the packed F
byte, then force the fixed bits (bit 1 set, bits 3 and 5 cleared). -/
def i8080_store_flags (s : i8080) : i8080 :=
  { s with F := ((storeFlagsByte s ||| 0x02) &&& 0xf7) &&& 0xdf }

/-- `i8080_retrieve_flags`: decode the five logical flags from the packed
F byte (the fixed bits of F are ignored and F itself is not modified). -/
def i8080_retrieve_flags (s : i8080) : i8080 :=
  { s with f := { s.f with
      sign_flag := (s.F &&& 0x80) != 0,
      zero_flag := (s.F &&& 0x40) != 0,
      half_carry_flag := (s.F &&& 0x10) != 0,
      parity_flag := (s.F &&& 0x04) != 0,
      carry_flag := (s.F &&& 0x01) != 0 } }

/-- `i8080_checkCondition`: the 3-bit condition field selects a flag or its
negation; the C fall-through returns 0. -/
def i8080_checkCondition (c : Nat) (fl : flag_reg) : Bool :=
  match c with
  | 0 => !fl.zero_flag
  | 1 => fl.zero_flag
  | 2 => !fl.carry_flag
  | 3 => fl.carry_flag
  | 4 => !fl.parity_flag
  | 5 => fl.parity_flag
  | 6 => !fl.sign_flag
  | 7 => fl.sign_flag
  | _ => false

/-- `i8080_init`: clears the five logical flags, sets the fixed flag slots
`unused1`/`unused3`/`unused5` to 1/0/0 and the program counter to 0xF800.
(No other field of the C `cpu` struct is written by `i8080_init`; the
registers are zero at program start only because `cpu` has static storage
duration.) -/
def i8080_init (s : i8080) : i8080 :=
  { s with
    f := { carry_flag := false, unused1 := true, parity_flag := false,
           unused3 := false, half_carry_flag := false, unused5 := false,
           zero_flag := false, sign_flag := false },
    PC := 0xF800 }

/-- `i8080_jump`: `PC = addr & 0xffff`.  The C argument is a (two's
complement) `int`; masking it with 0xffff yields its residue mod 2^16,
which is `Int.emod` by 65536. -/
def i8080_jump (addr : Int) (s : i8080) : i8080 :=
  { s with PC := (addr % 65536).toNat }

/-- A CPU state with every field zero: the static initial value of the C
file-scope `cpu` struct (and of the dead global `M`). -/
def zero8080 : i8080 :=
  { f := { carry_flag := false, unused1 := false, parity_flag := false,
           unused3 := false, half_carry_flag := false, unused5 := false,
           zero_flag := false, sign_flag := false },
    A := 0, F := 0, B := 0, C := 0, D := 0, E := 0, H := 0, L := 0,
    SP := 0, PC := 0, IFF := 0 }

/-- All-zero memory. -/
def zeroMem : Mem := fun _ => 0

/-- An I/O port map that returns 0 on every input port. -/
def io0 : Nat → Nat := fun _ => 0

/-- `i8080_execute`: decode and execute one opcode, mirroring the C decoder
structure: the exact-match `switch` first, then the three masked families
and the MOV family, else the `-1` sentinel.  `io` models the HAL
`i8080_hal_io_input`; the side effects of `i8080_hal_io_output` and
`i8080_hal_iff` do not touch CPU state or memory and are dropped. -/
def i8080_execute (opcode : Nat) (s : i8080) (m : Mem) (io : Nat → Nat) : StepResult :=
  match opcode with
  | 0x00 | 0x08 | 0x10 | 0x18 | 0x20 | 0x28 | 0x30 | 0x38 =>      -- nop (documented and undocumented)
    ⟨s, m, 4⟩
  | 0x07 =>                                                       -- rlc
    let c := (s.A &&& 0x80) != 0
    ⟨{ s with A := ((s.A <<< 1) ||| c.toNat) % 256,
              f := { s.f with carry_flag := c } }, m, 4⟩
  | 0x0F =>                                                       -- rrc
    let c := s.A &&& 0x01
    ⟨{ s with A := ((s.A >>> 1) ||| (c <<< 7)) % 256,
              f := { s.f with carry_flag := c != 0 } }, m, 4⟩
  | 0x17 =>                                                       -- ral
    let work8 := s.f.carry_flag.toNat
    let c := (s.A &&& 0x80) != 0
    ⟨{ s with A := ((s.A <<< 1) ||| work8) % 256,
              f := { s.f with carry_flag := c } }, m, 4⟩
  | 0x1F =>                                                       -- rar
    let work8 := s.f.carry_flag.toNat
    let c := s.A &&& 0x01
    ⟨{ s with A := ((s.A >>> 1) ||| (work8 <<< 7)) % 256,
              f := { s.f with carry_flag := c != 0 } }, m, 4⟩
  | 0x22 =>                                                       -- shld addr
    ⟨{ s with PC := (s.PC + 2) % 65536 }, WR_WORD m (RD_WORD m s.PC) (HL s), 16⟩
  | 0x27 =>                                                       -- daa
    let carry := s.f.carry_flag
    let add0 : Nat := if s.f.half_carry_flag || decide (9 < s.A &&& 0x0f) then 0x06 else 0
    let big := s.f.carry_flag || decide (9 < s.A >>> 4) ||
               (decide (9 ≤ s.A >>> 4) && decide (9 < s.A &&& 0x0f))
    let add1 := if big then add0 ||| 0x60 else add0
    let carry1 := if big then true else carry
    let s1 := ADD s add1
    ⟨{ s1 with f := { s1.f with parity_flag := i8080_getParity s1.A != 0,
                                carry_flag := carry1 } }, m, 4⟩
  | 0x2A =>                                                       -- ldhl addr
    let v := RD_WORD m (RD_WORD m s.PC)
    ⟨{ s with H := v % 65536 / 256, L := v % 256, PC := (s.PC + 2) % 65536 }, m, 16⟩
  | 0x2F =>                                                       -- cma
    ⟨{ s with A := s.A ^^^ 0xff }, m, 4⟩
  | 0x32 =>                                                       -- sta addr
    ⟨{ s with PC := (s.PC + 2) % 65536 }, WR_BYTE m (RD_WORD m s.PC) s.A, 13⟩
  | 0x34 =>                                                       -- inr m
    let p := INR (RD_BYTE m (HL s)) s.f
    ⟨{ s with f := p.2 }, WR_BYTE m (HL s) p.1, 10⟩
  | 0x35 =>                                                       -- dcr m
    let p := DCR (RD_BYTE m (HL s)) s.f
    ⟨{ s with f := p.2 }, WR_BYTE m (HL s) p.1, 10⟩
  | 0x36 =>                                                       -- mvi m, data8
    ⟨{ s with PC := (s.PC + 1) % 65536 }, WR_BYTE m (HL s) (RD_BYTE m s.PC), 10⟩
  | 0x37 =>                                                       -- stc
    ⟨{ s with f := { s.f with carry_flag := true } }, m, 4⟩
  | 0x3A =>                                                       -- lda addr
    ⟨{ s with A := RD_BYTE m (RD_WORD m s.PC), PC := (s.PC + 2) % 65536 }, m, 13⟩
  | 0x3F =>                                                       -- cmc
    ⟨{ s with f := { s.f with carry_flag := !s.f.carry_flag } }, m, 4⟩
  | 0x76 =>                                                       -- hlt
    ⟨{ s with PC := (s.PC + 65535) % 65536 }, m, 4⟩
  | 0x86 =>                                                       -- add m
    ⟨ADD s (RD_BYTE m (HL s)), m, 7⟩
  | 0x8E =>                                                       -- adc m
    ⟨ADC s (RD_BYTE m (HL s)), m, 7⟩
  | 0x96 =>                                                       -- sub m
    ⟨SUB s (RD_BYTE m (HL s)), m, 7⟩
  | 0x9E =>                                                       -- sbb m
    ⟨SBB s (RD_BYTE m (HL s)), m, 7⟩
  | 0xA6 =>                                                       -- ana m
    ⟨ANA s (RD_BYTE m (HL s)), m, 7⟩
  | 0xAE =>                                                       -- xra m
    ⟨XRA s (RD_BYTE m (HL s)), m, 7⟩
  | 0xB6 =>                                                       -- ora m
    ⟨ORA s (RD_BYTE m (HL s)), m, 7⟩
  | 0xBE =>                                                       -- cmp m
    ⟨CMP s (RD_BYTE m (HL s)), m, 7⟩
  | 0xC3 | 0xCB =>                                                -- jmp addr (0xCB undocumented)
    ⟨{ s with PC := RD_WORD m s.PC }, m, 10⟩
  | 0xC6 =>                                                       -- adi data8
    ⟨ADD { s with PC := (s.PC + 1) % 65536 } (RD_BYTE m s.PC), m, 7⟩
  | 0xC9 | 0xD9 =>                                                -- ret (0xD9 undocumented)
    ⟨{ s with PC := RD_WORD m s.SP, SP := (s.SP + 2) % 65536 }, m, 10⟩
  | 0xCD | 0xDD | 0xED | 0xFD =>                                  -- call addr (3 undocumented)
    let s1 := { s with SP := (s.SP + 65534) % 65536 }
    let m1 := WR_WORD m s1.SP ((s.PC + 2) % 65536)
    ⟨{ s1 with PC := RD_WORD m1 s.PC }, m1, 17⟩
  | 0xCE =>                                                       -- aci data8
    ⟨ADC { s with PC := (s.PC + 1) % 65536 } (RD_BYTE m s.PC), m, 7⟩
  | 0xD3 =>                                                       -- out port8 (output dropped)
    ⟨{ s with PC := (s.PC + 1) % 65536 }, m, 10⟩
  | 0xD6 =>                                                       -- sui data8
    ⟨SUB { s with PC := (s.PC + 1) % 65536 } (RD_BYTE m s.PC), m, 7⟩
  | 0xDB =>                                                       -- in port8
    ⟨{ s with A := io (RD_BYTE m s.PC) % 256, PC := (s.PC + 1) % 65536 }, m, 10⟩
  | 0xDE =>                                                       -- sbi data8
    ⟨SBB { s with PC := (s.PC + 1) % 65536 } (RD_BYTE m s.PC), m, 7⟩
  | 0xE3 =>                                                       -- xthl
    let w := RD_WORD m s.SP
    ⟨{ s with H := w / 256, L := w % 256 }, WR_WORD m s.SP (HL s), 18⟩
  | 0xE6 =>                                                       -- ani data8
    ⟨ANA { s with PC := (s.PC + 1) % 65536 } (RD_BYTE m s.PC), m, 7⟩
  | 0xE9 =>                                                       -- pchl
    ⟨{ s with PC := HL s % 65536 }, m, 5⟩
  | 0xEB =>                                                       -- xchg
    ⟨{ s with D := s.H, E := s.L, H := s.D, L := s.E }, m, 4⟩
  | 0xEE =>                                                       -- xri data8
    ⟨XRA { s with PC := (s.PC + 1) % 65536 } (RD_BYTE m s.PC), m, 7⟩
  | 0xF1 =>                                                       -- pop psw
    let v := RD_WORD m s.SP
    ⟨i8080_retrieve_flags
        { s with A := v % 65536 / 256, F := v % 256, SP := (s.SP + 2) % 65536 }, m, 10⟩
  | 0xF3 =>                                                       -- di
    ⟨{ s with IFF := 0 }, m, 4⟩
  | 0xF5 =>                                                       -- push psw
    let s1 := i8080_store_flags s
    let s2 := { s1 with SP := (s1.SP + 65534) % 65536 }
    ⟨s2, WR_WORD m s2.SP (256 * s2.A + s2.F), 11⟩
  | 0xF6 =>                                                       -- ori data8
    ⟨ORA { s with PC := (s.PC + 1) % 65536 } (RD_BYTE m s.PC), m, 7⟩
  | 0xF9 =>                                                       -- sphl
    ⟨{ s with SP := HL s % 65536 }, m, 5⟩
  | 0xFB =>                                                       -- ei
    ⟨{ s with IFF := 1 }, m, 4⟩
  | 0xFE =>                                                       -- cpi data8
    ⟨CMP { s with PC := (s.PC + 1) % 65536 } (RD_BYTE m s.PC), m, 7⟩
  | _ =>
    -- cmp,ora,xra,ana,sbb,sub,adc,add on a register operand
    if opcode &&& 0b11111000 == 0b10111000 then ⟨CMP s (REGget s (SOURCE opcode)), m, 4⟩
    else if opcode &&& 0b11111000 == 0b10110000 then ⟨ORA s (REGget s (SOURCE opcode)), m, 4⟩
    else if opcode &&& 0b11111000 == 0b10101000 then ⟨XRA s (REGget s (SOURCE opcode)), m, 4⟩
    else if opcode &&& 0b11111000 == 0b10100000 then ⟨ANA s (REGget s (SOURCE opcode)), m, 4⟩
    else if opcode &&& 0b11111000 == 0b10011000 then ⟨SBB s (REGget s (SOURCE opcode)), m, 4⟩
    else if opcode &&& 0b11111000 == 0b10010000 then ⟨SUB s (REGget s (SOURCE opcode)), m, 4⟩
    else if opcode &&& 0b11111000 == 0b10001000 then ⟨ADC s (REGget s (SOURCE opcode)), m, 4⟩
    else if opcode &&& 0b11111000 == 0b10000000 then ⟨ADD s (REGget s (SOURCE opcode)), m, 4⟩
    -- rst,cccc,jccc,rccc,mvi,dcr,inr
    else if opcode &&& 0b11000111 == 0b11000111 then                -- rst n
      let s1 := { s with SP := (s.SP + 65534) % 65536 }
      ⟨{ s1 with PC := DEST opcode * 8 }, WR_WORD m s1.SP s.PC, 11⟩
    else if opcode &&& 0b11000111 == 0b11000100 then                -- cccc addr
      if i8080_checkCondition (CONDITION opcode) s.f then
        let s1 := { s with SP := (s.SP + 65534) % 65536 }
        let m1 := WR_WORD m s1.SP ((s.PC + 2) % 65536)
        ⟨{ s1 with PC := RD_WORD m1 s.PC }, m1, 17⟩
      else ⟨{ s with PC := (s.PC + 2) % 65536 }, m, 11⟩
    else if opcode &&& 0b11000111 == 0b11000010 then                -- jccc addr
      ⟨{ s with PC := if i8080_checkCondition (CONDITION opcode) s.f
                      then RD_WORD m s.PC else (s.PC + 2) % 65536 }, m, 10⟩
    else if opcode &&& 0b11000111 == 0b11000000 then                -- rccc
      if i8080_checkCondition (CONDITION opcode) s.f then
        ⟨{ s with PC := RD_WORD m s.SP, SP := (s.SP + 2) % 65536 }, m, 11⟩
      else ⟨s, m, 5⟩
    else if opcode &&& 0b11000111 == 0b00000110 then                -- mvi d,data8
      ⟨{ REGset s (DEST opcode) (RD_BYTE m s.PC) with PC := (s.PC + 1) % 65536 }, m, 7⟩
    else if opcode &&& 0b11000111 == 0b00000101 then                -- dcr d
      let p := DCR (REGget s (DEST opcode)) s.f
      ⟨{ REGset s (DEST opcode) p.1 with f := p.2 }, m, 5⟩
    else if opcode &&& 0b11000111 == 0b00000100 then                -- inr d
      let p := INR (REGget s (DEST opcode)) s.f
      ⟨{ REGset s (DEST opcode) p.1 with f := p.2 }, m, 5⟩
    -- push,pop,dcx,ldax,dad,inx,stax,lxi
    else if opcode &&& 0b11001111 == 0b11000101 then                -- push rp
      let s1 := { s with SP := (s.SP + 65534) % 65536 }
      ⟨s1, WR_WORD m s1.SP (PAIRget s1 (RP opcode)), 11⟩
    else if opcode &&& 0b11001111 == 0b11000001 then                -- pop rp
      let s1 := PAIRset s (RP opcode) (RD_WORD m s.SP)
      ⟨{ s1 with SP := (s1.SP + 2) % 65536 }, m, 11⟩
    else if opcode &&& 0b11001111 == 0b00001011 then                -- dcx rp
      ⟨PAIRset s (RP opcode) ((PAIRget s (RP opcode) + 65535) % 65536), m, 5⟩
    else if opcode &&& 0b11001111 == 0b00001010 then                -- ldax rp
      ⟨{ s with A := RD_BYTE m (PAIRget s (RP opcode)) }, m, 7⟩
    else if opcode &&& 0b11001111 == 0b00001001 then                -- dad rp
      ⟨DAD s (PAIRget s (RP opcode)), m, 10⟩
    else if opcode &&& 0b11001111 == 0b00000011 then                -- inx rp
      ⟨PAIRset s (RP opcode) ((PAIRget s (RP opcode) + 1) % 65536), m, 5⟩
    else if opcode &&& 0b11001111 == 0b00000010 then                -- stax rp
      ⟨s, WR_BYTE m (PAIRget s (RP opcode)) s.A, 7⟩
    else if opcode &&& 0b11001111 == 0b00000001 then                -- lxi rp,data16
      ⟨{ PAIRset s (RP opcode) (RD_WORD m s.PC) with PC := (s.PC + 2) % 65536 }, m, 10⟩
    -- mov d,s
    else if opcode &&& 0b11000000 == 0b01000000 then
      if DEST opcode == 6 then
        ⟨s, WR_BYTE m (HL s) (REGget s (SOURCE opcode)), 5⟩
      else if SOURCE opcode == 6 then
        ⟨REGset s (DEST opcode) (RD_BYTE m (HL s)), m, 5⟩
      else
        ⟨REGset s (DEST opcode) (REGget s (SOURCE opcode)), m, 5⟩
    else ⟨s, m, -1⟩

/-- `i8080_instruction`: fetch the opcode byte at PC, advance PC past it
(uns16 post-increment), then execute. -/
def i8080_instruction (s : i8080) (m : Mem) (io : Nat → Nat) : StepResult :=
  i8080_execute (RD_BYTE m s.PC) { s with PC := (s.PC + 1) % 65536 } m io

/-! ## Concrete machines used by the scenario theorems -/

/-- Memory holding `MVI A,0x9B; DAA` at address 0 (zero elsewhere). -/
def daaMem : Mem :=
  fun a => if a = 0 then 0x3E else if a = 1 then 0x9B else if a = 2 then 0x27 else 0

/-- The `init`-then-`jump 0` start state of the spec's concrete scenarios,
starting from the statically zero-initialized `cpu`. -/
def daaS0 : i8080 := i8080_jump 0 (i8080_init zero8080)

/-- First step of the DAA scenario (executes `MVI A,0x9B`). -/
def daaR1 : StepResult := i8080_instruction daaS0 daaMem io0

/-- Second step of the DAA scenario (executes `DAA`). -/
def daaR2 : StepResult := i8080_instruction daaR1.st daaR1.mem io0

/-- Memory holding `CMA` everywhere. -/
def cmaMem : Mem := fun _ => 0x2F

/-! ## Claim theorems -/

/-- C1: the claim says MOV r,M and MOV M,r (memory-operand MOV) cost 7
cycles while register-register MOV costs 5, and that MVI r,d8, immediate
ALU ops, LDAX, STAX and ALU M→A cost 7.  The code returns 5 for EVERY
opcode of the MOV family, including the memory forms: `i8080_execute`
yields 5 cycles for 0x46 (MOV B,M) and 0x70 (MOV M,B), contradicting the
claimed 7; the remaining classes do cost as claimed (5 for MOV B,C, 7 for
ADD M, MVI B, ADI, LDAX B, STAX B). -/
theorem mov_memory_cycles_five :
    (i8080_execute 0x46 zero8080 zeroMem io0).cycles = 5 ∧
    (i8080_execute 0x70 zero8080 zeroMem io0).cycles = 5 ∧
    (i8080_execute 0x41 zero8080 zeroMem io0).cycles = 5 ∧
    (i8080_execute 0x86 zero8080 zeroMem io0).cycles = 7 ∧
    (i8080_execute 0x06 zero8080 zeroMem io0).cycles = 7 ∧
    (i8080_execute 0xC6 zero8080 zeroMem io0).cycles = 7 ∧
    (i8080_execute 0x0A zero8080 zeroMem io0).cycles = 7 ∧
    (i8080_execute 0x02 zero8080 zeroMem io0).cycles = 7 := by
  decide

/-- Bits 1, 3, 5 of the value materialized by `i8080_store_flags` are
1, 0, 0 whatever byte the S/Z/H/P/C stage produced. -/
theorem store_flags_fixed_bits_aux (n : Nat) :
    (((n ||| 0x02) &&& 0xf7) &&& 0xdf).testBit 1 = true ∧
    (((n ||| 0x02) &&& 0xf7) &&& 0xdf).testBit 3 = false ∧
    (((n ||| 0x02) &&& 0xf7) &&& 0xdf).testBit 5 = false := by
  have h1 : Nat.testBit 0x02 1 = true := by decide
  have h2 : Nat.testBit 0x02 3 = false := by decide
  have h3 : Nat.testBit 0x02 5 = false := by decide
  have h4 : Nat.testBit 0xf7 1 = true := by decide
  have h5 : Nat.testBit 0xf7 3 = false := by decide
  have h6 : Nat.testBit 0xf7 5 = true := by decide
  have h7 : Nat.testBit 0xdf 1 = true := by decide
  have h8 : Nat.testBit 0xdf 3 = true := by decide
  have h9 : Nat.testBit 0xdf 5 = false := by decide
  refine ⟨?_, ?_, ?_⟩ <;>
    simp [Nat.testBit_land, Nat.testBit_lor, h1, h2, h3, h4, h5, h6, h7, h8, h9]

/-- C2 (counterexample): popping the word 0x0000 with POP PSW leaves the
packed flags byte F with bit 1 equal to 0, so the fixed bits are NOT
forced to 1,0,0 by POP PSW, contrary to the claim. -/
theorem pop_psw_fixed_bits_not_forced :
    (i8080_execute 0xF1 zero8080 zeroMem io0).st.F.testBit 1 = false := by
  decide

/-- C2 (amended): POP PSW stores the popped low byte into F verbatim (the
fixed bits are not forced there); the fixed bits 1,0,0 at positions 1,3,5
are forced whenever F is materialized by `i8080_store_flags`, i.e. after
every PUSH PSW. -/
theorem pop_psw_raw_push_psw_forced (s : i8080) (m : Mem) (io : Nat → Nat) :
    (i8080_execute 0xF1 s m io).st.F = RD_WORD m s.SP % 256 ∧
    (i8080_execute 0xF5 s m io).st.F.testBit 1 = true ∧
    (i8080_execute 0xF5 s m io).st.F.testBit 3 = false ∧
    (i8080_execute 0xF5 s m io).st.F.testBit 5 = false := by
  refine ⟨rfl, ?_, ?_, ?_⟩
  · exact (store_flags_fixed_bits_aux (storeFlagsByte s)).1
  · exact (store_flags_fixed_bits_aux (storeFlagsByte s)).2.1
  · exact (store_flags_fixed_bits_aux (storeFlagsByte s)).2.2

/-- C3 (counterexample): `i8080_init` called on a state whose accumulator
is 5 leaves the accumulator at 5, so init does not set A (nor the other
registers) to 0 from an arbitrary prior state. -/
theorem init_does_not_clear_registers :
    ¬ (i8080_init { zero8080 with A := 5 }).A = 0 := by
  decide

/-- C3 (amended): from any prior state, `i8080_init` clears the five
logical flags, sets the fixed flag slots to 1,0,0 and PC to 0xF800, and
leaves A, F, B, C, D, E, H, L, SP and IFF untouched (they are 0 after the
first init only because the C `cpu` struct is statically
zero-initialized). -/
theorem init_effect (s : i8080) :
    (i8080_init s).f = { carry_flag := false, unused1 := true, parity_flag := false,
                         unused3 := false, half_carry_flag := false, unused5 := false,
                         zero_flag := false, sign_flag := false } ∧
    (i8080_init s).PC = 0xF800 ∧
    (i8080_init s).A = s.A ∧ (i8080_init s).F = s.F ∧
    (i8080_init s).B = s.B ∧ (i8080_init s).C = s.C ∧
    (i8080_init s).D = s.D ∧ (i8080_init s).E = s.E ∧
    (i8080_init s).H = s.H ∧ (i8080_init s).L = s.L ∧
    (i8080_init s).SP = s.SP ∧ (i8080_init s).IFF = s.IFF :=
  ⟨rfl, rfl, rfl, rfl, rfl, rfl, rfl, rfl, rfl, rfl, rfl, rfl⟩

/-- C7: starting from init-then-jump-to-0 with flags clear, `MVI A,0x9B`
then `DAA` gives A=0x01, C=1, H=1, Z=0, P=0, S=0, with cycle costs 7 and 4
(total 11). -/
theorem daa_scenario :
    daaR2.st.A = 0x01 ∧
    daaR2.st.f.carry_flag = true ∧
    daaR2.st.f.half_carry_flag = true ∧
    daaR2.st.f.zero_flag = false ∧
    daaR2.st.f.parity_flag = false ∧
    daaR2.st.f.sign_flag = false ∧
    daaR1.cycles = 7 ∧ daaR2.cycles = 4 ∧ daaR1.cycles + daaR2.cycles = 11 := by
  decide

/-- C9: `i8080_jump addr` sets PC to the (always nonnegative) residue of
`addr` mod 65536 — in particular PC is masked to 16 bits — and changes no
other CPU state. -/
theorem jump_sets_pc_mod (addr : Int) (s : i8080) :
    ((i8080_jump addr s).PC : Int) = addr % 65536 ∧
    (i8080_jump addr s).PC < 65536 ∧
    (i8080_jump addr s).f = s.f ∧
    (i8080_jump addr s).A = s.A ∧ (i8080_jump addr s).F = s.F ∧
    (i8080_jump addr s).B = s.B ∧ (i8080_jump addr s).C = s.C ∧
    (i8080_jump addr s).D = s.D ∧ (i8080_jump addr s).E = s.E ∧
    (i8080_jump addr s).H = s.H ∧ (i8080_jump addr s).L = s.L ∧
    (i8080_jump addr s).SP = s.SP ∧ (i8080_jump addr s).IFF = s.IFF := by
  refine ⟨?_, ?_, rfl, rfl, rfl, rfl, rfl, rfl, rfl, rfl, rfl, rfl, rfl⟩
  · exact Int.toNat_of_nonneg (Int.emod_nonneg addr (by norm_num))
  · show (addr % 65536).toNat < 65536
    have h1 := Int.emod_lt_of_pos addr (show (0 : Int) < 65536 by norm_num)
    have h2 := Int.emod_nonneg addr (show (65536 : Int) ≠ 0 by norm_num)
    omega

/-- C10: executing CMA (opcode 0x2F) through `i8080_instruction` replaces
A with its bitwise complement and changes nothing else: the flags, B, C,
D, E, H, L, SP, IFF and memory are untouched, PC advances only by the
one-byte opcode fetch, and the cost is 4 cycles. -/
theorem cma_step (s : i8080) (m : Mem) (io : Nat → Nat) (h : RD_BYTE m s.PC = 0x2F) :
    i8080_instruction s m io =
      ⟨{ s with PC := (s.PC + 1) % 65536, A := s.A ^^^ 0xff }, m, 4⟩ := by
  unfold i8080_instruction
  rw [h]
  rfl

/-- C10 witness: CMA from the zero state. -/
theorem cma_step_witness :
    i8080_instruction zero8080 cmaMem io0 =
      ⟨{ zero8080 with PC := 1, A := 0xff }, cmaMem, 4⟩ :=
  cma_step zero8080 cmaMem io0 rfl

/-- Decoding an opcode below 256 never reaches the `-1` default path: the
exact table, the three masked families and the MOV family cover all 256
opcode values, and every arm returns a positive cycle count. -/
theorem exec_cycles_pos (op : Nat) (hop : op < 256) (s : i8080) (m : Mem)
    (io : Nat → Nat) : 0 < (i8080_execute op s m io).cycles := by
  interval_cases op <;>
    first
      | exact of_decide_eq_true rfl
      | (rcases s with ⟨⟨fc, fu1, fp, fu3, fh, fu5, fz, fs⟩, a, f, b, c, d, e, hh, l, sp, pc, ii⟩;
         cases fz <;> cases fc <;> cases fp <;> cases fs <;> exact of_decide_eq_true rfl)

/-- C4: for every opcode value in [0,255] and every CPU/memory state,
execution returns a positive cycle count (the `-1` sentinel is
unreachable), both for `i8080_execute` on the opcode itself and for a
full `i8080_instruction` fetch-and-execute step. -/
theorem step_cycles_positive (op : Nat) (s : i8080) (m : Mem) (io : Nat → Nat)
    (hop : op < 256) :
    0 < (i8080_execute op s m io).cycles ∧ 0 < (i8080_instruction s m io).cycles := by
  refine ⟨exec_cycles_pos op hop s m io, ?_⟩
  have h : RD_BYTE m s.PC < 256 := Nat.mod_lt _ (by norm_num)
  exact exec_cycles_pos _ h _ m io

/-- C4 witness: the NOP opcode from the zero state. -/
theorem step_cycles_positive_witness :
    0 < (i8080_execute 0 zero8080 zeroMem io0).cycles ∧
    0 < (i8080_instruction zero8080 zeroMem io0).cycles :=
  step_cycles_positive 0 zero8080 zeroMem io0 (by decide)

/-- C6: for every CPU state and operand, `CMP` leaves the accumulator
unchanged and sets S, Z, H, P, C to exactly the values `SUB` of the same
operand would set from the same pre-state. -/
theorem cmp_eq_sub_flags (s : i8080) (v : Nat) :
    (CMP s v).A = s.A ∧
    (CMP s v).f.sign_flag = (SUB s v).f.sign_flag ∧
    (CMP s v).f.zero_flag = (SUB s v).f.zero_flag ∧
    (CMP s v).f.half_carry_flag = (SUB s v).f.half_carry_flag ∧
    (CMP s v).f.parity_flag = (SUB s v).f.parity_flag ∧
    (CMP s v).f.carry_flag = (SUB s v).f.carry_flag := by
  refine ⟨rfl, ?_, rfl, rfl, rfl, rfl⟩
  show ((65536 + s.A - v) % 65536 &&& 0x80 != 0)
     = (((65536 + s.A - v) % 65536 &&& 0xff) &&& 0x80 != 0)
  rw [Nat.and_assoc]
  rfl

/-! ## Half-carry table machinery (C5) -/

set_option maxRecDepth 100000 in
/-- `x & 0x88` keeps exactly bits 3 and 7 (byte-range inputs). -/
theorem and88_small : ∀ x < 256, x &&& 0x88 = x / 8 % 2 * 8 + x / 128 % 2 * 128 := by
  decide

/-- `x & 0x88` keeps exactly bits 3 and 7 of any input: bits above 7 are
masked away, so only the low byte matters. -/
theorem and88_decomp (x : Nat) :
    x &&& 0x88 = x % 256 / 8 % 2 * 8 + x % 256 / 128 % 2 * 128 := by
  have h : x &&& 255 = x % 256 := by
    have h2 := Nat.and_pow_two_sub_one_eq_mod x 8
    norm_num at h2
    exact h2
  calc x &&& 0x88 = x &&& (255 &&& 0x88) := rfl
    _ = (x &&& 255) &&& 0x88 := (Nat.and_assoc x 255 0x88).symm
    _ = (x % 256) &&& 0x88 := by rw [h]
    _ = x % 256 / 8 % 2 * 8 + x % 256 / 128 % 2 * 128 :=
        and88_small (x % 256) (Nat.mod_lt x (by norm_num))

/-- Assembling the half-carry table index from the extracted bits 3 and 7
of accumulator, operand and result: the bit-7 contributions vanish under
the final `& 7` and the index is `A3*4 + op3*2 + result3`. -/
theorem lorshift64 : ∀ a3 < 2, ∀ a7 < 2, ∀ v3 < 2, ∀ v7 < 2, ∀ r3 < 2, ∀ r7 < 2,
    (((a3 * 8 + a7 * 128) >>> 1) ||| ((v3 * 8 + v7 * 128) >>> 2) |||
      ((r3 * 8 + r7 * 128) >>> 3)) &&& 0x7 = a3 * 4 + v3 * 2 + r3 := by
  decide

/-- The H flag an `ADD`/`ADC`-shaped operation computes through
`half_carry_table` equals the carry out of bit 3 of the 4-bit addition
(with carry-in `c`). -/
theorem hc_addlike (a v c : Nat) (ha : a < 256) (hv : v < 256) (hc : c ≤ 1) :
    (half_carry_table.getD ((((a &&& 0x88) >>> 1) ||| ((v &&& 0x88) >>> 2) |||
        ((((a + v + c) % 65536) &&& 0x88) >>> 3)) &&& 0x7) 0 != 0)
      = decide (16 ≤ a % 16 + v % 16 + c) := by
  have t0 : (half_carry_table.getD (0 * 4 + 0 * 2 + 0) 0 != 0) = false := by decide
  have t1 : (half_carry_table.getD (0 * 4 + 0 * 2 + 1) 0 != 0) = false := by decide
  have t2 : (half_carry_table.getD (0 * 4 + 1 * 2 + 0) 0 != 0) = true := by decide
  have t3 : (half_carry_table.getD (0 * 4 + 1 * 2 + 1) 0 != 0) = false := by decide
  have t4 : (half_carry_table.getD (1 * 4 + 0 * 2 + 0) 0 != 0) = true := by decide
  have t5 : (half_carry_table.getD (1 * 4 + 0 * 2 + 1) 0 != 0) = false := by decide
  have t6 : (half_carry_table.getD (1 * 4 + 1 * 2 + 0) 0 != 0) = true := by decide
  have t7 : (half_carry_table.getD (1 * 4 + 1 * 2 + 1) 0 != 0) = true := by decide
  rw [and88_decomp a, and88_decomp v, and88_decomp ((a + v + c) % 65536)]
  rw [lorshift64 (a % 256 / 8 % 2) (by omega) (a % 256 / 128 % 2) (by omega)
      (v % 256 / 8 % 2) (by omega) (v % 256 / 128 % 2) (by omega)
      ((a + v + c) % 65536 % 256 / 8 % 2) (by omega)
      ((a + v + c) % 65536 % 256 / 128 % 2) (by omega)]
  have h1 : a % 256 / 8 % 2 = 0 ∨ a % 256 / 8 % 2 = 1 := by omega
  have h2 : v % 256 / 8 % 2 = 0 ∨ v % 256 / 8 % 2 = 1 := by omega
  have h3 : (a + v + c) % 65536 % 256 / 8 % 2 = 0 ∨
      (a + v + c) % 65536 % 256 / 8 % 2 = 1 := by omega
  rcases h1 with h1 | h1 <;> rcases h2 with h2 | h2 <;> rcases h3 with h3 | h3 <;>
    rw [h1, h2, h3] <;>
    simp only [t0, t1, t2, t3, t4, t5, t6, t7] <;>
    first
      | (refine (decide_eq_true ?_).symm; omega)
      | (refine (decide_eq_false ?_).symm; omega)

/-- The H flag a `SUB`/`SBB`/`CMP`-shaped operation computes through the
complemented `sub_half_carry_table` equals the ABSENCE of a borrow out of
bit 3 of the 4-bit subtraction (with borrow-in `c`). -/
theorem hc_sublike (a v c : Nat) (ha : a < 256) (hv : v < 256) (hc : c ≤ 1) :
    (sub_half_carry_table.getD ((((a &&& 0x88) >>> 1) ||| ((v &&& 0x88) >>> 2) |||
        ((((65536 + a - v - c) % 65536) &&& 0x88) >>> 3)) &&& 0x7) 0 == 0)
      = decide (v % 16 + c ≤ a % 16) := by
  have t0 : (sub_half_carry_table.getD (0 * 4 + 0 * 2 + 0) 0 == 0) = true := by decide
  have t1 : (sub_half_carry_table.getD (0 * 4 + 0 * 2 + 1) 0 == 0) = false := by decide
  have t2 : (sub_half_carry_table.getD (0 * 4 + 1 * 2 + 0) 0 == 0) = false := by decide
  have t3 : (sub_half_carry_table.getD (0 * 4 + 1 * 2 + 1) 0 == 0) = false := by decide
  have t4 : (sub_half_carry_table.getD (1 * 4 + 0 * 2 + 0) 0 == 0) = true := by decide
  have t5 : (sub_half_carry_table.getD (1 * 4 + 0 * 2 + 1) 0 == 0) = true := by decide
  have t6 : (sub_half_carry_table.getD (1 * 4 + 1 * 2 + 0) 0 == 0) = true := by decide
  have t7 : (sub_half_carry_table.getD (1 * 4 + 1 * 2 + 1) 0 == 0) = false := by decide
  rw [and88_decomp a, and88_decomp v, and88_decomp ((65536 + a - v - c) % 65536)]
  rw [lorshift64 (a % 256 / 8 % 2) (by omega) (a % 256 / 128 % 2) (by omega)
      (v % 256 / 8 % 2) (by omega) (v % 256 / 128 % 2) (by omega)
      ((65536 + a - v - c) % 65536 % 256 / 8 % 2) (by omega)
      ((65536 + a - v - c) % 65536 % 256 / 128 % 2) (by omega)]
  have h1 : a % 256 / 8 % 2 = 0 ∨ a % 256 / 8 % 2 = 1 := by omega
  have h2 : v % 256 / 8 % 2 = 0 ∨ v % 256 / 8 % 2 = 1 := by omega
  have h3 : (65536 + a - v - c) % 65536 % 256 / 8 % 2 = 0 ∨
      (65536 + a - v - c) % 65536 % 256 / 8 % 2 = 1 := by omega
  rcases h1 with h1 | h1 <;> rcases h2 with h2 | h2 <;> rcases h3 with h3 | h3 <;>
    rw [h1, h2, h3] <;>
    simp only [t0, t1, t2, t3, t4, t5, t6, t7] <;>
    first
      | (refine (decide_eq_true ?_).symm; omega)
      | (refine (decide_eq_false ?_).symm; omega)

/-- C5: for byte-range accumulator and operand, the half-carry flag after
ADD/ADC equals the carry out of bit 3 of the 4-bit addition (with carry-in
for ADC), and after SUB/SBB/CMP it equals the complement of the borrow out
of bit 3 (with borrow-in for SBB): the lookup tables indexed by
`((A&8)>>1) | ((op&8)>>2) | ((result&8)>>3)` compute exactly these
predicates. -/
theorem half_carry_tables_correct (s : i8080) (v : Nat) (hA : s.A < 256) (hv : v < 256) :
    ((ADD s v).f.half_carry_flag = decide (16 ≤ s.A % 16 + v % 16)) ∧
    ((ADC s v).f.half_carry_flag
        = decide (16 ≤ s.A % 16 + v % 16 + s.f.carry_flag.toNat)) ∧
    ((SUB s v).f.half_carry_flag = decide (v % 16 ≤ s.A % 16)) ∧
    ((SBB s v).f.half_carry_flag
        = decide (v % 16 + s.f.carry_flag.toNat ≤ s.A % 16)) ∧
    ((CMP s v).f.half_carry_flag = decide (v % 16 ≤ s.A % 16)) := by
  have hcle : s.f.carry_flag.toNat ≤ 1 := by cases s.f.carry_flag <;> decide
  exact ⟨hc_addlike s.A v 0 hA hv (by omega),
         hc_addlike s.A v s.f.carry_flag.toNat hA hv hcle,
         hc_sublike s.A v 0 hA hv (by omega),
         hc_sublike s.A v s.f.carry_flag.toNat hA hv hcle,
         hc_sublike s.A v 0 hA hv (by omega)⟩

/-- C5 witness: ADD 0x0F + 1 from the zero-accumulator state produces no
half-carry only when the nibble sum stays below 16; here A = 0 so H is
false. -/
theorem half_carry_tables_correct_witness :
    (ADD zero8080 1).f.half_carry_flag = decide (16 ≤ zero8080.A % 16 + 1 % 16) :=
  (half_carry_tables_correct zero8080 1 (by decide) (by decide)).1

/-! ## Parity machinery (C8) -/

/-- The number of set bits among the low 8 bits of `n`. -/
def popcount8 (n : Nat) : Nat :=
  n % 2 + n / 2 % 2 + n / 4 % 2 + n / 8 % 2 + n / 16 % 2 +
    n / 32 % 2 + n / 64 % 2 + n / 128 % 2

set_option maxRecDepth 100000 in
/-- On bytes, `i8080_getParity` returns 1 exactly on even popcount. -/
theorem getParity_even_all :
    ∀ x < 256, i8080_getParity x = if popcount8 x % 2 = 0 then 1 else 0 := by
  decide

set_option maxRecDepth 100000 in
/-- On bytes, the C truth value of `i8080_getParity` is the even-parity
predicate. -/
theorem parity_bool_all :
    ∀ x < 256, (i8080_getParity x != 0) = decide (popcount8 x % 2 = 0) := by
  decide

/-- C8: the nibble-fold through 0x6996 returns 1 iff its byte argument has
an even number of set bits, and consequently the P flag set by
ADD/ADC/SUB/SBB/CMP/ANA/ORA/XRA/INR/DCR equals the even-parity predicate
of the low 8 bits of the operation's result. -/
theorem parity_flag_even_popcount (v : Nat) (s : i8080) (w r : Nat)
    (hv : v < 256) (hA : s.A < 256) (hw : w < 256) (hr : r < 256) :
    (i8080_getParity v = if popcount8 v % 2 = 0 then 1 else 0) ∧
    ((ADD s w).f.parity_flag = decide (popcount8 (ADD s w).A % 2 = 0)) ∧
    ((ADC s w).f.parity_flag = decide (popcount8 (ADC s w).A % 2 = 0)) ∧
    ((SUB s w).f.parity_flag = decide (popcount8 (SUB s w).A % 2 = 0)) ∧
    ((SBB s w).f.parity_flag = decide (popcount8 (SBB s w).A % 2 = 0)) ∧
    ((CMP s w).f.parity_flag = decide (popcount8 (SUB s w).A % 2 = 0)) ∧
    ((ANA s w).f.parity_flag = decide (popcount8 (ANA s w).A % 2 = 0)) ∧
    ((ORA s w).f.parity_flag = decide (popcount8 (ORA s w).A % 2 = 0)) ∧
    ((XRA s w).f.parity_flag = decide (popcount8 (XRA s w).A % 2 = 0)) ∧
    ((INR r s.f).2.parity_flag = decide (popcount8 (INR r s.f).1 % 2 = 0)) ∧
    ((DCR r s.f).2.parity_flag = decide (popcount8 (DCR r s.f).1 % 2 = 0)) := by
  refine ⟨getParity_even_all v hv, ?_, ?_, ?_, ?_, ?_, ?_, ?_, ?_, ?_, ?_⟩
  · exact parity_bool_all _ (Nat.lt_of_le_of_lt Nat.and_le_right (by norm_num))
  · exact parity_bool_all _ (Nat.lt_of_le_of_lt Nat.and_le_right (by norm_num))
  · exact parity_bool_all _ (Nat.lt_of_le_of_lt Nat.and_le_right (by norm_num))
  · exact parity_bool_all _ (Nat.lt_of_le_of_lt Nat.and_le_right (by norm_num))
  · exact parity_bool_all _ (Nat.lt_of_le_of_lt Nat.and_le_right (by norm_num))
  · exact parity_bool_all _ (Nat.lt_of_le_of_lt Nat.and_le_right hw)
  · have hor : s.A ||| w < 2 ^ 8 :=
      Nat.or_lt_two_pow (x := s.A) (y := w) (by omega) (by omega)
    exact parity_bool_all _ (by omega)
  · have hxor : s.A ^^^ w < 2 ^ 8 :=
      Nat.xor_lt_two_pow (x := s.A) (y := w) (by omega) (by omega)
    exact parity_bool_all _ (by omega)
  · exact parity_bool_all _ (Nat.mod_lt _ (by norm_num))
  · exact parity_bool_all _ (Nat.mod_lt _ (by norm_num))

/-- C8 witness: parity of 3 (two set bits, even) and of the ADD result
from the zero state. -/
theorem parity_flag_even_popcount_witness :
    i8080_getParity 3 = if popcount8 3 % 2 = 0 then 1 else 0 :=
  (parity_flag_even_popcount 3 zero8080 1 2 (by decide) (by decide) (by decide)
    (by decide)).1
